import Mathlib

/-!
Verification of the nutrition-analyzer app (src/app.py) against its design
specification. The app has a single logic function, analyze_food_image, plus
prompt construction and a goal-to-notes step in main. We embed these as pure
Lean functions: Python exceptions become the error branch of Except, the
returned Python dicts become the AnalysisDict structure, Streamlit session
state becomes an Option value threaded through a fold, and the remote Gemini
transport is an opaque function parameter that either returns text or raises.
-/

namespace NutritionApp

/-- The fixed instruction template sent with every request, transcribed
byte-for-byte from the SYSTEM_PROMPT constant of src/app.py. -/
def SYSTEM_PROMPT : String := "You are a certified nutrition analyst. You receive (a) a single food image and (b) optional user notes.
Your tasks:
1) Identify the food items present. If uncertain, state assumptions explicitly.
2) Estimate portion sizes (grams or common household measures) as seen; if uncertain, give a conservative range and say why.
3) Provide calories per item and a total calorie estimate.
4) Include macronutrient breakdown per item when reasonably inferable (protein, carbs, fat in grams).
5) Flag allergens or dietary considerations (e.g., nuts, dairy, gluten) if likely present; explain uncertainty.
6) Offer healthier swap suggestions or portion guidance for common goals (weight loss, maintenance, muscle gain)—keep it brief and practical.

Formatting (use exactly this structure):
- Items Detected:
  1) <Item name> — ~<portion> — ~<kcal> kcal
     • Macros (est.): P ~x g, C ~y g, F ~z g
  2) ...

- Assumptions & Uncertainty:
  • <short bullet on any visual ambiguity and its impact on estimates>

- Total Estimated Calories: ~<sum> kcal

- Notes & Tips:
  • <one-line practical advice or swap>
  • <one-line safety/allergen caveat if relevant>

Constraints & Behavior:
- If visibility is poor or items are occluded, say so and provide a best-effort range.
- Do not invent precise values when uncertain; provide ranges and label them.
- Prefer standard reference foods and typical preparation methods unless user notes say otherwise.
- Be concise but complete. Avoid long paragraphs; prefer clean bullets."

/-- An uploaded image, abstracted to its captured bytes (PIL Image objects are
never written to by the app, so the byte content is the whole state). -/
structure PILImage where
  bytes : List Nat
deriving Repr, DecidableEq

/-- The genai.GenerativeModel handle returned by initialize_gemini. The field
generate_content is the opaque transport call: it is given the combined prompt
text and the image and either returns the response text (Except.ok) or raises
an exception, represented by its str(e) rendering (Except.error). -/
structure GeminiModel where
  api_key : Option String
  model_name : String
  generate_content : String → PILImage → Except String String

/-- Process environment as seen by os.getenv: the GOOGLE_API_KEY variable may
be absent. -/
structure Env where
  google_api_key : Option String

/-- Embeds initialize_gemini of src/app.py. It reads GOOGLE_API_KEY from the
environment and passes it to genai.configure, which stores the possibly-missing
key without any validation (per the design, key absence is not checked in
advance), then returns GenerativeModel with the fixed model name. The remote
endpoint behavior is the parameter service, keyed by the configured api key. -/
def initialize_gemini (service : Option String → String → PILImage → Except String String)
    (env : Env) : GeminiModel :=
  { api_key := env.google_api_key
    model_name := "gemini-2.5-pro"
    generate_content := service env.google_api_key }

/-- The dict returned by analyze_food_image. The Python function returns either
the two keys success/analysis or the two keys success/error; a field value of
none records that the key is absent from the dict. -/
structure AnalysisDict where
  success : Bool
  analysis : Option String
  error : Option String
deriving Repr, DecidableEq

/-- Embeds the conditional expression on line 71 of src/app.py:
user_message is the f-string rendering of the notes when user_notes is truthy
(present and non-empty, Python truthiness on an optional string), and the
fixed placeholder sentence otherwise. -/
def build_user_message : Option String → String
  | some s => if s != "" then "User notes: " ++ s else "No additional notes provided."
  | none => "No additional notes provided."

/-- Embeds line 72 of src/app.py: the full prompt is the system prompt, a blank
line, and the user message. -/
def build_full_prompt (user_notes : Option String) : String :=
  SYSTEM_PROMPT ++ "\n\n" ++ build_user_message user_notes

/-- Embeds analyze_food_image of src/app.py. The try block builds the prompt,
calls the transport, and returns the success dict; the except clause catches
every exception and returns the failure dict carrying str(e). The Lean result
type AnalysisDict (rather than Except) records that the function never lets an
exception escape to its caller. -/
def analyze_food_image (model : GeminiModel) (image : PILImage)
    (user_notes : Option String := none) : AnalysisDict :=
  let full_prompt := build_full_prompt user_notes
  match model.generate_content full_prompt image with
  | Except.ok text => { success := true, analysis := some text, error := none }
  | Except.error e => { success := false, analysis := none, error := some e }

/-- The try-block body of analyze_food_image with every Python step that could
raise made explicit: user_message_step is the construction of the user message
(line 71, inside the try), and transport_step is the generate_content call plus
the response.text access. An Except.error value is a raised exception carrying
its str(e). -/
def analyze_try_body (user_message_step : Except String String)
    (transport_step : String → Except String String) : Except String AnalysisDict :=
  match user_message_step with
  | Except.error e => Except.error e
  | Except.ok user_message =>
    match transport_step (SYSTEM_PROMPT ++ "\n\n" ++ user_message) with
    | Except.error e => Except.error e
    | Except.ok text => Except.ok { success := true, analysis := some text, error := none }

/-- The except-clause wrapper of analyze_food_image around the whole try body:
any exception raised by any step becomes the failure dict with str(e). -/
def analyze_food_image_exc (user_message_step : Except String String)
    (transport_step : String → Except String String) : AnalysisDict :=
  match analyze_try_body user_message_step transport_step with
  | Except.ok d => d
  | Except.error e => { success := false, analysis := none, error := some e }

/-- State-passing embedding of analyze_food_image that threads the local
variable image through the body: no statement of the body assigns to image, so
the value after each statement is the value at entry. The second component is
the image binding when the function returns. -/
def analyze_food_image_frame (model : GeminiModel) (image : PILImage)
    (user_notes : Option String) : AnalysisDict × PILImage :=
  let image_at_entry := image
  let full_prompt := build_full_prompt user_notes
  match model.generate_content full_prompt image_at_entry with
  | Except.ok text => ({ success := true, analysis := some text, error := none }, image_at_entry)
  | Except.error e => ({ success := false, analysis := none, error := some e }, image_at_entry)

/-- The options of the Health Goal selectbox in main (src/app.py line 114). -/
def selectbox_goal_options : List String :=
  ["General Info", "Weight Loss", "Muscle Gain", "Maintenance"]

/-- Embeds lines 142 to 147 of src/app.py: when the selected goal differs from
General Info, the goal suffix is appended to non-empty notes after a separator,
or becomes the whole notes string when the notes were empty; otherwise the
notes pass through unchanged. -/
def add_goal_to_notes (goal : String) (user_notes : String) : String :=
  if goal != "General Info" then
    if user_notes != "" then user_notes ++ " | Goal: " ++ goal
    else "Goal: " ++ goal
  else user_notes

/-- Embeds line 160 of src/app.py: storing an analysis result under the result
key of st.session_state replaces whatever was there before. -/
def store_result (_session_result : Option AnalysisDict) (result : AnalysisDict) :
    Option AnalysisDict :=
  some result

/-- The session-state value at the result key after a sequence of clicks of the
Analyze button, each click carrying the image and effective notes of that
request; the state starts empty (the key absent). -/
def run_analyze_clicks (model : GeminiModel) (clicks : List (PILImage × String)) :
    Option AnalysisDict :=
  clicks.foldl (fun st c => store_result st (analyze_food_image model c.1 (some c.2))) none

/-- s contains pat as a contiguous substring. -/
def containsSubstring (s pat : String) : Prop :=
  ∃ pre post : String, s = pre ++ pat ++ post

theorem containsSubstring_iff (s pat : String) :
    containsSubstring s pat ↔ pat.data <:+: s.data := by
  constructor
  · rintro ⟨pre, post, rfl⟩
    exact ⟨pre.data, post.data, by simp⟩
  · rintro ⟨l, r, h⟩
    refine ⟨⟨l⟩, ⟨r⟩, String.ext ?_⟩
    simpa using h.symm

instance instDecidableContainsSubstring (s pat : String) :
    Decidable (containsSubstring s pat) :=
  decidable_of_iff' _ (containsSubstring_iff s pat)

/-- A four-byte sample image (the PNG magic prefix bytes). -/
def sampleImage : PILImage := ⟨[137, 80, 78, 71]⟩

/-- A model whose transport always answers with the fixed text t. -/
def okModel (t : String) : GeminiModel :=
  ⟨some "key", "gemini-2.5-pro", fun _ _ => Except.ok t⟩

/-- A model whose transport always raises an exception with str(e) = e. -/
def errModel (e : String) : GeminiModel :=
  ⟨some "key", "gemini-2.5-pro", fun _ _ => Except.error e⟩

/-- A remote service that rejects calls made without an API key and answers
normally otherwise; used to exercise the missing-key path. -/
def authCheckingService : Option String → String → PILImage → Except String String :=
  fun key _ _ =>
    match key with
    | none => Except.error "400 API key not valid."
    | some _ => Except.ok "Items Detected: ..."

example : build_user_message (some "hi") = "User notes: hi" := rfl

example : build_user_message (some "") = "No additional notes provided." := rfl

example : build_user_message none = "No additional notes provided." := rfl

example : add_goal_to_notes "Weight Loss" "leftover pizza" =
    "leftover pizza | Goal: Weight Loss" := rfl

example : add_goal_to_notes "Weight Loss" "" = "Goal: Weight Loss" := rfl

example : add_goal_to_notes "General Info" "abc" = "abc" := rfl

example : analyze_food_image (okModel "T") sampleImage (some "n") =
    { success := true, analysis := some "T", error := none } := rfl

example : analyze_food_image (errModel "boom") sampleImage none =
    { success := false, analysis := none, error := some "boom" } := rfl

theorem not_containsSubstring_of_char {s pat : String} (c : Char)
    (hc : c ∈ pat.data) (hs : c ∉ s.data) : ¬ containsSubstring s pat := by
  intro h
  exact hs (((containsSubstring_iff s pat).mp h).subset hc)

set_option maxRecDepth 8000

/-- C1: whenever the transport call raises an exception, analyze_food_image
returns the failure dict whose error value is exactly str(e) for that
exception; the total return type AnalysisDict records that the exception never
propagates to the caller. -/
theorem C1_transport_error_gives_failure (model : GeminiModel) (image : PILImage)
    (user_notes : Option String) (e : String)
    (h : model.generate_content (build_full_prompt user_notes) image = Except.error e) :
    analyze_food_image model image user_notes =
      { success := false, analysis := none, error := some e } := by
  simp [analyze_food_image, h]

theorem C1_witness :
    analyze_food_image (errModel "503 Service Unavailable") sampleImage (some "pasta") =
      { success := false, analysis := none, error := some "503 Service Unavailable" } :=
  C1_transport_error_gives_failure (errModel "503 Service Unavailable") sampleImage
    (some "pasta") "503 Service Unavailable" rfl

/-- C2: whenever the transport call returns text T, analyze_food_image returns
the success dict whose analysis value is exactly T, with no trimming or
reformatting applied. -/
theorem C2_transport_ok_gives_success_verbatim (model : GeminiModel) (image : PILImage)
    (user_notes : Option String) (T : String)
    (h : model.generate_content (build_full_prompt user_notes) image = Except.ok T) :
    analyze_food_image model image user_notes =
      { success := true, analysis := some T, error := none } := by
  simp [analyze_food_image, h]

theorem C2_witness :
    analyze_food_image (okModel "  raw analysis text \n") sampleImage (some "note") =
      { success := true, analysis := some "  raw analysis text \n", error := none } :=
  C2_transport_ok_gives_success_verbatim (okModel "  raw analysis text \n") sampleImage
    (some "note") "  raw analysis text \n" rfl

/-- C3: for every selectbox goal other than General Info and every original
notes string, the effective notes string is the original notes followed by the
separator and the goal, or just the goal line when the notes were empty; and in
the WeightLoss scenario the built instruction contains the expected line. -/
theorem C3_goal_suffix_appended (goal : String) (_hmem : goal ∈ selectbox_goal_options)
    (hne : goal ≠ "General Info") (notes : String) :
    add_goal_to_notes goal notes =
      (if notes = "" then "Goal: " ++ goal else notes ++ " | Goal: " ++ goal) ∧
    containsSubstring
      (build_full_prompt (some (add_goal_to_notes "Weight Loss" "leftover pizza")))
      "User notes: leftover pizza | Goal: Weight Loss" := by
  have hb : (goal != "General Info") = true := bne_iff_ne.mpr hne
  refine ⟨?_, ⟨SYSTEM_PROMPT ++ "\n\n", "", by rw [String.append_empty]; rfl⟩⟩
  by_cases hn : notes = ""
  · subst hn
    simp [add_goal_to_notes, hb]
  · have hb2 : (notes != "") = true := bne_iff_ne.mpr hn
    simp [add_goal_to_notes, hb, hb2, hn]

theorem C3_witness :
    add_goal_to_notes "Weight Loss" "leftover pizza" =
      (if "leftover pizza" = "" then "Goal: " ++ "Weight Loss"
        else "leftover pizza" ++ " | Goal: " ++ "Weight Loss") ∧
    containsSubstring
      (build_full_prompt (some (add_goal_to_notes "Weight Loss" "leftover pizza")))
      "User notes: leftover pizza | Goal: Weight Loss" :=
  C3_goal_suffix_appended "Weight Loss" (by decide) (by decide) "leftover pizza"

/-- C4: with absent notes, and likewise in the scenario of empty notes with the
General Info goal (which passes the notes through unchanged), the built
instruction contains the placeholder sentence and carries no goal suffix (no
occurrence of the goal marker at all). -/
theorem C4_absent_notes_placeholder :
    containsSubstring (build_full_prompt none) "No additional notes provided." ∧
    add_goal_to_notes "General Info" "" = "" ∧
    containsSubstring (build_full_prompt (some "")) "No additional notes provided." ∧
    ¬ containsSubstring (build_full_prompt none) "Goal: " ∧
    ¬ containsSubstring (build_full_prompt (some "")) "Goal: " :=
  ⟨⟨SYSTEM_PROMPT ++ "\n\n", "", by rw [String.append_empty]; rfl⟩, rfl,
    ⟨SYSTEM_PROMPT ++ "\n\n", "", by rw [String.append_empty]; rfl⟩,
    not_containsSubstring_of_char 'G' (by decide) (by decide),
    not_containsSubstring_of_char 'G' (by decide) (by decide)⟩

/-- C5: for every non-empty notes string n, the built instruction is exactly
the fixed template, a blank line, and the user-notes line, so it contains the
text User notes: followed by n verbatim. -/
theorem C5_user_notes_verbatim (n : String) (hn : n ≠ "") :
    build_full_prompt (some n) = SYSTEM_PROMPT ++ "\n\n" ++ ("User notes: " ++ n) ∧
    containsSubstring (build_full_prompt (some n)) ("User notes: " ++ n) := by
  have hb : (n != "") = true := bne_iff_ne.mpr hn
  refine ⟨?_, ⟨SYSTEM_PROMPT ++ "\n\n", "", ?_⟩⟩
  · simp [build_full_prompt, build_user_message, hb]
  · simp [build_full_prompt, build_user_message, hb]

theorem C5_witness :
    build_full_prompt (some "homemade pasta") =
      SYSTEM_PROMPT ++ "\n\n" ++ ("User notes: " ++ "homemade pasta") ∧
    containsSubstring (build_full_prompt (some "homemade pasta"))
      ("User notes: " ++ "homemade pasta") :=
  C5_user_notes_verbatim "homemade pasta" (by decide)

/-- C6: every dict returned by analyze_food_image is exactly one arm of the
tagged union: either success true with an analysis text and no error key, or
success false with an error message and no analysis key, never both and never
neither. -/
theorem C6_result_is_tagged_union (model : GeminiModel) (image : PILImage)
    (user_notes : Option String) :
    Xor'
      ((analyze_food_image model image user_notes).success = true ∧
        (∃ t, (analyze_food_image model image user_notes).analysis = some t) ∧
        (analyze_food_image model image user_notes).error = none)
      ((analyze_food_image model image user_notes).success = false ∧
        (∃ m, (analyze_food_image model image user_notes).error = some m) ∧
        (analyze_food_image model image user_notes).analysis = none) := by
  cases h : model.generate_content (build_full_prompt user_notes) image with
  | ok t => simp [analyze_food_image, h, Xor']
  | error e => simp [analyze_food_image, h, Xor']

/-- C7: initialization completes and performs no key validation when the
GOOGLE_API_KEY variable is absent (the model is built with the missing key
stored as is), and the missing key surfaces only at transport-call time, as a
failure dict carrying the stringified transport error. -/
theorem C7_missing_key_surfaces_at_call_time
    (service : Option String → String → PILImage → Except String String)
    (image : PILImage) (user_notes : Option String) (e : String) :
    (initialize_gemini service { google_api_key := none }).api_key = none ∧
    (initialize_gemini service { google_api_key := none }).model_name = "gemini-2.5-pro" ∧
    (service none (build_full_prompt user_notes) image = Except.error e →
      analyze_food_image (initialize_gemini service { google_api_key := none })
        image user_notes =
        { success := false, analysis := none, error := some e }) := by
  refine ⟨rfl, rfl, fun h => ?_⟩
  simp [analyze_food_image, initialize_gemini, h]

theorem C7_witness :
    analyze_food_image (initialize_gemini authCheckingService { google_api_key := none })
      sampleImage none =
      { success := false, analysis := none, error := some "400 API key not valid." } :=
  (C7_missing_key_surfaces_at_call_time authCheckingService sampleImage none
    "400 API key not valid.").2.2 rfl

/-- C8: the session state holds at most one result: it is none before the
first Analyze click, and after any sequence of clicks it holds exactly the
result of the most recent request, each store overwriting the previous one. -/
theorem C8_session_holds_latest_result (model : GeminiModel)
    (clicks : List (PILImage × String)) (image : PILImage) (notes : String) :
    run_analyze_clicks model [] = none ∧
    run_analyze_clicks model (clicks ++ [(image, notes)]) =
      some (analyze_food_image model image (some notes)) := by
  refine ⟨rfl, ?_⟩
  simp [run_analyze_clicks, List.foldl_append, store_result]

/-- C9: the image is never mutated by analyze_food_image: in the state-passing
embedding the image binding at return equals the image at entry, on the
success branch and on the failure branch alike, and the result component
agrees with analyze_food_image. -/
theorem C9_image_not_mutated (model : GeminiModel) (image : PILImage)
    (user_notes : Option String) :
    (analyze_food_image_frame model image user_notes).2 = image ∧
    (analyze_food_image_frame model image user_notes).1 =
      analyze_food_image model image user_notes := by
  cases h : model.generate_content (build_full_prompt user_notes) image <;>
    simp [analyze_food_image_frame, analyze_food_image, h]

/-- C10: the try block wraps the whole body, prompt construction included: an
exception raised while building the user message is caught and returned as the
failure dict with its str(e), an exception raised by the transport step is
caught the same way, and on raise-free prompt construction the generic body
agrees with analyze_food_image. -/
theorem C10_try_wraps_whole_body
    (transport_step : String → Except String String) (e : String) :
    analyze_food_image_exc (Except.error e) transport_step =
      { success := false, analysis := none, error := some e } ∧
    (∀ m, transport_step (SYSTEM_PROMPT ++ "\n\n" ++ m) = Except.error e →
      analyze_food_image_exc (Except.ok m) transport_step =
        { success := false, analysis := none, error := some e }) ∧
    (∀ (model : GeminiModel) (image : PILImage) (user_notes : Option String),
      analyze_food_image model image user_notes =
        analyze_food_image_exc (Except.ok (build_user_message user_notes))
          (fun p => model.generate_content p image)) := by
  refine ⟨rfl, fun m h => ?_, fun model image user_notes => ?_⟩
  · simp [analyze_food_image_exc, analyze_try_body, h]
  · cases h : model.generate_content
        (SYSTEM_PROMPT ++ "\n\n" ++ build_user_message user_notes) image <;>
      simp [analyze_food_image, analyze_food_image_exc, analyze_try_body,
        build_full_prompt, h]

theorem C10_witness :
    analyze_food_image_exc (Except.error "TypeError while formatting notes")
      (fun _ => Except.ok "text") =
      { success := false, analysis := none,
        error := some "TypeError while formatting notes" } ∧
    analyze_food_image_exc (Except.ok "No additional notes provided.")
      (fun _ => Except.error "deadline exceeded") =
      { success := false, analysis := none, error := some "deadline exceeded" } :=
  ⟨(C10_try_wraps_whole_body (fun _ => Except.ok "text")
      "TypeError while formatting notes").1,
    (C10_try_wraps_whole_body (fun _ => Except.error "deadline exceeded")
      "deadline exceeded").2.1 "No additional notes provided." rfl⟩

end NutritionApp
